import Mathlib

/-!
Shallow embedding of the StockAlert monitoring service (src/main.py).

Prices and percentages are modelled as rationals; timestamps as integers
counting seconds.  The threshold file on disk is an `Option ThresholdState`
(`none` means the per-asset threshold file does not exist yet).  Exceptions
raised by the Python code are modelled with explicit error values threaded
through `run_cycle`; the `try`/`except` wrapper around the whole monitoring
loop in `monitor_asset` is modelled by `monitor_step`, which turns any error
escaping a cycle into a terminal state (the handler logs, emails, sets the
global stop event and re-raises).
-/

namespace StockAlert

/-- One day, in seconds: the model of `timedelta(days=1)`. -/
def secondsPerDay : ℤ := 86400

/-- The per-asset threshold record stored in `{asset}_threshold.json`:
`{'threshold_percent': float, 'last_updated': iso-timestamp}`. -/
structure ThresholdState where
  threshold_percent : ℚ
  last_updated : ℤ
deriving DecidableEq

/-- The `default_state` built in `get_threshold_state`:
`{'threshold_percent': 5.0, 'last_updated': datetime.now().isoformat()}`. -/
def default_state (now : ℤ) : ThresholdState :=
  ⟨5, now⟩

/-- The daily decay update applied by `get_threshold_state`:
`max(5.0, state['threshold_percent'] - 1.0)`. -/
def decayed (t : ℚ) : ℚ := max 5 (t - 1)

/-- Model of `get_threshold_state(asset_type)` from src/main.py.  Reads the stored
state (falling back to the default when the file is missing), and if at
least one day has elapsed since `last_updated` applies the decay once,
stamps `last_updated = now` and saves.  Returns the state handed to the
caller, the file contents afterwards, and whether a write happened. -/
def get_threshold_state (now : ℤ) (disk : Option ThresholdState) :
    ThresholdState × Option ThresholdState × Bool :=
  let state := disk.getD (default_state now)
  if secondsPerDay ≤ now - state.last_updated then
    let state' : ThresholdState := ⟨decayed state.threshold_percent, now⟩
    (state', some state', true)
  else
    (state, disk, false)

/-- The price list sorted in descending order:
`sorted(historical_prices, reverse=True)`. -/
def sortDesc (l : List ℚ) : List ℚ :=
  l.insertionSort (· ≥ ·)

/-- The smoothed peak computed in `monitor_asset`:
`statistics.mean(sorted(historical_prices, reverse=True)[:10])`.  `none` models the `StatisticsError` that
`statistics.mean` raises on an empty list; on a non-empty list the result
is the mean of however many of the top-10 slots are filled. -/
def smoothed_peak (historical_prices : List ℚ) : Option ℚ :=
  let top := (sortDesc historical_prices).take 10
  if top = [] then none
  else some (top.sum / (top.length : ℚ))

/-- Failures of the external price fetches. -/
inductive FetchError
  | network
  | auth
  | parse
deriving DecidableEq

/-- Exceptions that can escape one iteration of the monitoring loop. -/
inductive CycleError
  | fetch (e : FetchError)
  | statisticsError
  | zeroDivision
deriving DecidableEq

/-- Observable outcome of one iteration of the `while` loop in
`monitor_asset`: the threshold file afterwards, whether the alert branch
ran, how many alert emails were sent, and the exception (if any) that
escaped the iteration. -/
structure CycleOutcome where
  disk : Option ThresholdState
  alerted : Bool
  alert_emails : ℕ
  error : Option CycleError
deriving DecidableEq

/-- One iteration of the `while` loop in `monitor_asset`, in the code's
order: read (and possibly decay) the threshold state, fetch historical
prices, compute the smoothed peak, fetch the current price, compute the
drop percent (`ZeroDivisionError` when the peak is 0), and if
`current_drop_percent >= threshold_percent` send the alert email and save
the tightened state `{drop + 1.0, now}`. -/
def run_cycle (now : ℤ) (disk0 : Option ThresholdState)
    (hist : Except FetchError (List ℚ)) (cur : Except FetchError ℚ) :
    CycleOutcome :=
  let g := get_threshold_state now disk0
  let threshold_percent := g.1.threshold_percent
  let disk1 := g.2.1
  match hist with
  | .error e => ⟨disk1, false, 0, some (.fetch e)⟩
  | .ok historical_prices =>
    match smoothed_peak historical_prices with
    | none => ⟨disk1, false, 0, some .statisticsError⟩
    | some peak =>
      match cur with
      | .error e => ⟨disk1, false, 0, some (.fetch e)⟩
      | .ok current_price =>
        if peak = 0 then ⟨disk1, false, 0, some .zeroDivision⟩
        else
          let drop := (peak - current_price) / peak * 100
          if threshold_percent ≤ drop then
            ⟨some ⟨drop + 1, now⟩, true, 1, none⟩
          else
            ⟨disk1, false, 0, none⟩

/-- Status of one asset's monitor after an iteration: either the loop
continues to the next sleep/iteration, or an exception reached the
`except` clause wrapping the loop, which sets the stop event and
re-raises, terminating the monitor. -/
inductive MonitorStatus
  | running (disk : Option ThresholdState)
  | terminated (e : CycleError) (disk : Option ThresholdState)
deriving DecidableEq

/-- Model of `monitor_asset`'s handling of one iteration: the `try` block wraps the
whole `while` loop, so an error escaping an iteration terminates the
monitor instead of being retried on the next cycle. -/
def monitor_step (now : ℤ) (disk0 : Option ThresholdState)
    (hist : Except FetchError (List ℚ)) (cur : Except FetchError ℚ) :
    MonitorStatus :=
  let r := run_cycle now disk0 hist cur
  match r.error with
  | some e => .terminated e r.disk
  | none => .running r.disk

/-- Threshold values reachable from the baseline 5.0 by the two updates the
code performs: the daily decay in `get_threshold_state` and the post-alert
tightening `drop + 1.0` in `monitor_asset`, whose guard is
`threshold_percent <= drop`. -/
inductive ReachableThreshold : ℚ → Prop
  | init : ReachableThreshold 5
  | decay_step (t : ℚ) : ReachableThreshold t → ReachableThreshold (decayed t)
  | tighten (t d : ℚ) : ReachableThreshold t → t ≤ d → ReachableThreshold (d + 1)

/-- Spec-side reading of "the arithmetic mean of the 10 largest values":
the series splits (up to permutation) into a block of 10 values that
dominate all remaining values, and the result is that block's mean. -/
def IsMeanOfTenLargest (prices : List ℚ) (m : ℚ) : Prop :=
  ∃ top rest : List ℚ, prices.Perm (top ++ rest) ∧ top.length = 10 ∧
    (∀ x ∈ rest, ∀ y ∈ top, x ≤ y) ∧ m = top.sum / 10

/-! ### Reduction lemmas for the embedded operations -/

lemma get_threshold_state_none (now : ℤ) :
    get_threshold_state now none = (⟨5, now⟩, none, false) := by
  simp only [get_threshold_state, Option.getD, default_state]
  norm_num [secondsPerDay]

lemma get_threshold_state_no_decay (now : ℤ) (st : ThresholdState)
    (h : now - st.last_updated < secondsPerDay) :
    get_threshold_state now (some st) = (st, some st, false) := by
  simp only [get_threshold_state, Option.getD]
  rw [if_neg (not_le.mpr h)]

lemma get_threshold_state_decay (now : ℤ) (st : ThresholdState)
    (h : secondsPerDay ≤ now - st.last_updated) :
    get_threshold_state now (some st) =
      (⟨decayed st.threshold_percent, now⟩,
       some ⟨decayed st.threshold_percent, now⟩, true) := by
  simp only [get_threshold_state, Option.getD]
  rw [if_pos h]

lemma run_cycle_hist_error (now : ℤ) (disk0 : Option ThresholdState)
    (e : FetchError) (cur : Except FetchError ℚ) :
    run_cycle now disk0 (.error e) cur =
      ⟨(get_threshold_state now disk0).2.1, false, 0, some (.fetch e)⟩ := rfl

lemma run_cycle_cur_error (now : ℤ) (disk0 : Option ThresholdState)
    (prices : List ℚ) (p : ℚ) (e : FetchError)
    (hp : smoothed_peak prices = some p) :
    run_cycle now disk0 (.ok prices) (.error e) =
      ⟨(get_threshold_state now disk0).2.1, false, 0, some (.fetch e)⟩ := by
  simp only [run_cycle, hp]

lemma run_cycle_stats (now : ℤ) (disk0 : Option ThresholdState)
    (prices : List ℚ) (cur : Except FetchError ℚ)
    (hp : smoothed_peak prices = none) :
    run_cycle now disk0 (.ok prices) cur =
      ⟨(get_threshold_state now disk0).2.1, false, 0, some .statisticsError⟩ := by
  simp only [run_cycle, hp]

lemma run_cycle_ok_eq (now : ℤ) (disk0 : Option ThresholdState)
    (prices : List ℚ) (c p : ℚ) (hp : smoothed_peak prices = some p)
    (h0 : p ≠ 0) :
    run_cycle now disk0 (.ok prices) (.ok c) =
      if (get_threshold_state now disk0).1.threshold_percent ≤ (p - c) / p * 100 then
        ⟨some ⟨(p - c) / p * 100 + 1, now⟩, true, 1, none⟩
      else
        ⟨(get_threshold_state now disk0).2.1, false, 0, none⟩ := by
  simp only [run_cycle, hp, if_neg h0]

lemma run_cycle_zero_peak (now : ℤ) (disk0 : Option ThresholdState)
    (prices : List ℚ) (c : ℚ) (hp : smoothed_peak prices = some 0) :
    run_cycle now disk0 (.ok prices) (.ok c) =
      ⟨(get_threshold_state now disk0).2.1, false, 0, some .zeroDivision⟩ := by
  simp only [run_cycle, hp, if_pos rfl, if_true]

lemma monitor_step_of_error (now : ℤ) (disk0 : Option ThresholdState)
    (hist : Except FetchError (List ℚ)) (cur : Except FetchError ℚ)
    (e : CycleError) (h : (run_cycle now disk0 hist cur).error = some e) :
    monitor_step now disk0 hist cur =
      .terminated e (run_cycle now disk0 hist cur).disk := by
  simp only [monitor_step, h]

lemma monitor_step_of_ok (now : ℤ) (disk0 : Option ThresholdState)
    (hist : Except FetchError (List ℚ)) (cur : Except FetchError ℚ)
    (h : (run_cycle now disk0 hist cur).error = none) :
    monitor_step now disk0 hist cur =
      .running (run_cycle now disk0 hist cur).disk := by
  simp only [monitor_step, h]

/-! ### Sorting and smoothed-peak lemmas -/

lemma sortDesc_perm (l : List ℚ) : (sortDesc l).Perm l :=
  List.perm_insertionSort _ l

lemma sortDesc_sorted (l : List ℚ) : (sortDesc l).Sorted (· ≥ ·) :=
  List.sorted_insertionSort _ l

lemma sortDesc_eq_of_perm {l₁ l₂ : List ℚ} (h : l₁.Perm l₂) :
    sortDesc l₁ = sortDesc l₂ :=
  List.eq_of_perm_of_sorted
    (((sortDesc_perm l₁).trans h).trans (sortDesc_perm l₂).symm)
    (sortDesc_sorted l₁) (sortDesc_sorted l₂)

lemma smoothed_peak_of_long (l : List ℚ) (h : 10 ≤ l.length) :
    smoothed_peak l = some (((sortDesc l).take 10).sum / 10) := by
  have hlen : ((sortDesc l).take 10).length = 10 := by
    rw [List.length_take, (sortDesc_perm l).length_eq]
    omega
  have hne : (sortDesc l).take 10 ≠ [] := by
    intro hnil
    rw [hnil] at hlen
    simp at hlen
  simp only [smoothed_peak, if_neg hne, hlen]
  norm_num

lemma decayed_iterate (t : ℚ) (h : 5 ≤ t) (n : ℕ) :
    decayed^[n] t = max 5 (t - n) := by
  induction n with
  | zero => simp [max_eq_right h]
  | succ n ih =>
    rw [Function.iterate_succ_apply', ih, decayed]
    have hcast : ((n + 1 : ℕ) : ℚ) = (n : ℚ) + 1 := by push_cast; ring
    rw [hcast]
    rcases le_total (t - (n : ℚ)) 5 with hc | hc
    · rw [max_eq_left hc, max_eq_left (by linarith : t - ((n : ℚ) + 1) ≤ 5)]
      norm_num
    · rw [max_eq_right hc]
      congr 1
      ring

lemma smoothed_peak_ten_hundreds :
    smoothed_peak (List.replicate 10 100) = some 100 := by
  simp only [smoothed_peak, sortDesc, List.replicate, List.insertionSort,
    List.orderedInsert]
  norm_num
  all_goals exact fun h => List.noConfusion h

/-! ### Claim theorems -/

/-- C1: in a successful cycle with smoothed peak `p ≠ 0`, writing `T` for
the threshold produced by this cycle's read and `D = (p - c) / p * 100` for
the drop percent, the alert branch runs if and only if `D ≥ T` (the
comparison in the code is `current_drop_percent >= threshold_percent`, so
the boundary `D = T` alerts), and when it runs exactly one alert email is
sent and the tightened state `{D + 1.0, now}` is saved. -/
theorem alert_fires_iff_drop_ge_threshold (now : ℤ)
    (disk0 : Option ThresholdState) (prices : List ℚ) (c p : ℚ)
    (hp : smoothed_peak prices = some p) (h0 : p ≠ 0) :
    ((run_cycle now disk0 (.ok prices) (.ok c)).alerted = true ↔
      (p - c) / p * 100 ≥ (get_threshold_state now disk0).1.threshold_percent) ∧
    ((p - c) / p * 100 ≥ (get_threshold_state now disk0).1.threshold_percent →
      (run_cycle now disk0 (.ok prices) (.ok c)).alert_emails = 1 ∧
      (run_cycle now disk0 (.ok prices) (.ok c)).disk =
        some ⟨(p - c) / p * 100 + 1, now⟩) := by
  rw [run_cycle_ok_eq now disk0 prices c p hp h0]
  by_cases hT :
      (get_threshold_state now disk0).1.threshold_percent ≤ (p - c) / p * 100
  · rw [if_pos hT]
    simp [ge_iff_le, hT]
  · rw [if_neg hT]
    simp [ge_iff_le, hT]

/-- Witness for C1 at the boundary: peak 100, current price 95, fresh
baseline threshold 5, so `D = 5 = T` — and the alert does fire. -/
theorem alert_fires_iff_drop_ge_threshold_witness :
    smoothed_peak (List.replicate 10 100) = some 100 ∧ (100 : ℚ) ≠ 0 ∧
    ((((run_cycle 0 none (.ok (List.replicate 10 100)) (.ok 95)).alerted = true) ↔
      ((100 : ℚ) - 95) / 100 * 100 ≥
        (get_threshold_state 0 none).1.threshold_percent) ∧
     (((100 : ℚ) - 95) / 100 * 100 ≥
        (get_threshold_state 0 none).1.threshold_percent →
      (run_cycle 0 none (.ok (List.replicate 10 100)) (.ok 95)).alert_emails = 1 ∧
      (run_cycle 0 none (.ok (List.replicate 10 100)) (.ok 95)).disk =
        some ⟨((100 : ℚ) - 95) / 100 * 100 + 1, 0⟩)) :=
  ⟨smoothed_peak_ten_hundreds, by norm_num,
   alert_fires_iff_drop_ge_threshold 0 none _ 95 100
     smoothed_peak_ten_hundreds (by norm_num)⟩

/-- C2: for a series of length at least 10 the smoothed peak exists and is
the mean of a 10-element block dominating all remaining values (the "10
largest"), and any permutation of the series yields the same smoothed
peak. -/
theorem smoothed_peak_is_mean_of_ten_largest (prices : List ℚ)
    (h : 10 ≤ prices.length) :
    (∃ m, smoothed_peak prices = some m ∧ IsMeanOfTenLargest prices m) ∧
    (∀ l₂ : List ℚ, prices.Perm l₂ →
      smoothed_peak l₂ = smoothed_peak prices) := by
  constructor
  · refine ⟨((sortDesc prices).take 10).sum / 10,
      smoothed_peak_of_long prices h, ?_⟩
    refine ⟨(sortDesc prices).take 10, (sortDesc prices).drop 10, ?_, ?_, ?_, rfl⟩
    · rw [List.take_append_drop]
      exact (sortDesc_perm prices).symm
    · rw [List.length_take, (sortDesc_perm prices).length_eq]
      omega
    · have hs : List.Pairwise (· ≥ ·)
          ((sortDesc prices).take 10 ++ (sortDesc prices).drop 10) := by
        rw [List.take_append_drop]
        exact sortDesc_sorted prices
      rw [List.pairwise_append] at hs
      intro x hx y hy
      exact hs.2.2 y hy x hx
  · intro l₂ hperm
    simp only [smoothed_peak, sortDesc_eq_of_perm hperm.symm]

/-- Witness for C2 on a concrete 10-element series. -/
theorem smoothed_peak_is_mean_of_ten_largest_witness :
    10 ≤ (List.replicate 10 (100 : ℚ)).length ∧
    ((∃ m, smoothed_peak (List.replicate 10 (100 : ℚ)) = some m ∧
        IsMeanOfTenLargest (List.replicate 10 (100 : ℚ)) m) ∧
     (∀ l₂ : List ℚ, (List.replicate 10 (100 : ℚ)).Perm l₂ →
        smoothed_peak l₂ = smoothed_peak (List.replicate 10 (100 : ℚ)))) :=
  ⟨by simp, smoothed_peak_is_mean_of_ten_largest _ (by simp)⟩

/-- C4: when a cycle alerts with drop `D`, the saved state is exactly
`{D + 1.0, now}`, strictly above `D`; a following cycle less than a day
later whose drop is again `D` reads threshold `D + 1` unchanged (no decay
is due) and does not alert. -/
theorem tighten_prevents_realert (now₁ now₂ : ℤ)
    (disk0 : Option ThresholdState) (prices₁ prices₂ : List ℚ)
    (c₁ c₂ p₁ p₂ D : ℚ)
    (hp₁ : smoothed_peak prices₁ = some p₁) (h0₁ : p₁ ≠ 0)
    (hd₁ : (p₁ - c₁) / p₁ * 100 = D)
    (halert : (get_threshold_state now₁ disk0).1.threshold_percent ≤ D)
    (hp₂ : smoothed_peak prices₂ = some p₂) (h0₂ : p₂ ≠ 0)
    (hd₂ : (p₂ - c₂) / p₂ * 100 = D)
    (hsame : now₂ - now₁ < secondsPerDay) :
    (run_cycle now₁ disk0 (.ok prices₁) (.ok c₁)).disk = some ⟨D + 1, now₁⟩ ∧
    D < D + 1 ∧
    (run_cycle now₂ (run_cycle now₁ disk0 (.ok prices₁) (.ok c₁)).disk
        (.ok prices₂) (.ok c₂)).alerted = false := by
  have e₁ : run_cycle now₁ disk0 (.ok prices₁) (.ok c₁) =
      ⟨some ⟨D + 1, now₁⟩, true, 1, none⟩ := by
    rw [run_cycle_ok_eq now₁ disk0 prices₁ c₁ p₁ hp₁ h0₁, hd₁, if_pos halert]
  refine ⟨by rw [e₁], by linarith, ?_⟩
  rw [e₁]
  rw [run_cycle_ok_eq now₂ _ prices₂ c₂ p₂ hp₂ h0₂, hd₂]
  rw [get_threshold_state_no_decay now₂ ⟨D + 1, now₁⟩ hsame]
  have hng : ¬ ((D : ℚ) + 1 ≤ D) := by linarith
  simp [hng]

/-- Witness for C4: drop 10 against baseline 5 alerts, state becomes
`{11.0, 0}`, and the same drop 10 one hundred seconds later does not
re-alert. -/
theorem tighten_prevents_realert_witness :
    smoothed_peak (List.replicate 10 100) = some 100 ∧ (100 : ℚ) ≠ 0 ∧
    ((100 : ℚ) - 90) / 100 * 100 = 10 ∧
    (get_threshold_state 0 none).1.threshold_percent ≤ 10 ∧
    (100 : ℤ) - 0 < secondsPerDay ∧
    ((run_cycle 0 none (.ok (List.replicate 10 100)) (.ok 90)).disk =
        some ⟨(10 : ℚ) + 1, 0⟩ ∧
     (10 : ℚ) < 10 + 1 ∧
     (run_cycle 100 (run_cycle 0 none (.ok (List.replicate 10 100)) (.ok 90)).disk
        (.ok (List.replicate 10 100)) (.ok 90)).alerted = false) :=
  ⟨smoothed_peak_ten_hundreds, by norm_num, by norm_num,
   by rw [get_threshold_state_none]; norm_num, by norm_num [secondsPerDay],
   tighten_prevents_realert 0 100 none _ _ 90 90 100 100 10
     smoothed_peak_ten_hundreds (by norm_num) (by norm_num)
     (by rw [get_threshold_state_none]; norm_num)
     smoothed_peak_ten_hundreds (by norm_num) (by norm_num)
     (by norm_num [secondsPerDay])⟩

/-- C5 counterexample: state `{10.0, lastUpdated 0}` read at `now = 200000`
(more than a day later) is decayed and SAVED before the historical fetch
runs; when that fetch then fails, the threshold file no longer holds the
pre-cycle state, and the exception terminates the monitor instead of the
next cycle retrying. -/
theorem fetch_failure_mutates_state_and_terminates :
    (run_cycle 200000 (some ⟨10, 0⟩) (.error .network) (.ok 100)).disk ≠
      some (⟨10, 0⟩ : ThresholdState) ∧
    monitor_step 200000 (some ⟨10, 0⟩) (.error .network) (.ok 100) =
      .terminated (.fetch .network) (some ⟨9, 200000⟩) := by
  have hrc : run_cycle 200000 (some ⟨10, 0⟩) (.error .network) (.ok 100) =
      ⟨some ⟨9, 200000⟩, false, 0, some (.fetch .network)⟩ := by
    rw [run_cycle_hist_error,
      get_threshold_state_decay 200000 ⟨10, 0⟩ (by norm_num [secondsPerDay])]
    norm_num [decayed, max_def]
  constructor
  · rw [hrc]
    simp
  · rw [monitor_step_of_error _ _ _ _ _ (by rw [hrc]), hrc]

lemma run_cycle_error_shape (now : ℤ) (disk0 : Option ThresholdState)
    (hist : Except FetchError (List ℚ)) (cur : Except FetchError ℚ)
    (e : CycleError) (herr : (run_cycle now disk0 hist cur).error = some e) :
    run_cycle now disk0 hist cur =
      ⟨(get_threshold_state now disk0).2.1, false, 0, some e⟩ := by
  match hist with
  | .error e' =>
    have herr' : some (CycleError.fetch e') = some e := herr
    obtain rfl := Option.some.inj herr'
    exact run_cycle_hist_error now disk0 e' cur
  | .ok prices =>
    cases hsp : smoothed_peak prices with
    | none =>
      have hrc := run_cycle_stats now disk0 prices cur hsp
      have herr' : some CycleError.statisticsError = some e := by
        rw [hrc] at herr
        exact herr
      obtain rfl := Option.some.inj herr'
      exact hrc
    | some p =>
      match cur with
      | .error e' =>
        have hrc := run_cycle_cur_error now disk0 prices p e' hsp
        have herr' : some (CycleError.fetch e') = some e := by
          rw [hrc] at herr
          exact herr
        obtain rfl := Option.some.inj herr'
        exact hrc
      | .ok c =>
        by_cases hz : p = 0
        · subst hz
          have hrc := run_cycle_zero_peak now disk0 prices c hsp
          have herr' : some CycleError.zeroDivision = some e := by
            rw [hrc] at herr
            exact herr
          obtain rfl := Option.some.inj herr'
          exact hrc
        · rw [run_cycle_ok_eq now disk0 prices c p hsp hz] at herr
          by_cases hT : (get_threshold_state now disk0).1.threshold_percent ≤
              (p - c) / p * 100
          · rw [if_pos hT] at herr
            exact Option.noConfusion herr
          · rw [if_neg hT] at herr
            exact Option.noConfusion herr

/-- C5 amended: whenever any step of the cycle fails — the historical
fetch, the empty-series statistics error, the current-price fetch, or the
zero-peak division — no alert fires and no alert email is sent, and the
threshold file afterwards holds exactly what the read/decay step already
wrote this cycle (a due daily decay IS persisted, the pre-cycle state is
not restored); the exception escapes the loop and terminates the monitor
rather than being retried on the next schedule. -/
theorem cycle_failure_no_alert_but_terminates (now : ℤ)
    (disk0 : Option ThresholdState) (hist : Except FetchError (List ℚ))
    (cur : Except FetchError ℚ) (e : CycleError)
    (herr : (run_cycle now disk0 hist cur).error = some e) :
    (run_cycle now disk0 hist cur).alerted = false ∧
    (run_cycle now disk0 hist cur).alert_emails = 0 ∧
    (run_cycle now disk0 hist cur).disk =
      (get_threshold_state now disk0).2.1 ∧
    monitor_step now disk0 hist cur =
      .terminated e (get_threshold_state now disk0).2.1 := by
  have hrc := run_cycle_error_shape now disk0 hist cur e herr
  refine ⟨by rw [hrc], by rw [hrc], by rw [hrc], ?_⟩
  rw [monitor_step_of_error now disk0 hist cur e herr, hrc]

/-- Witness for the amended C5 on a failure past the historical fetch: an
empty historical series makes `statistics.mean` raise, no alert fires, the
threshold file keeps what the read step left, and the monitor
terminates. -/
theorem cycle_failure_no_alert_but_terminates_witness :
    (run_cycle 0 none (.ok []) (.ok 100)).error = some .statisticsError ∧
    ((run_cycle 0 none (.ok []) (.ok 100)).alerted = false ∧
     (run_cycle 0 none (.ok []) (.ok 100)).alert_emails = 0 ∧
     (run_cycle 0 none (.ok []) (.ok 100)).disk =
       (get_threshold_state 0 none).2.1 ∧
     monitor_step 0 none (.ok []) (.ok 100) =
       .terminated .statisticsError (get_threshold_state 0 none).2.1) :=
  ⟨rfl, cycle_failure_no_alert_but_terminates 0 none (.ok []) (.ok 100)
    .statisticsError rfl⟩

/-- C3: on a series with fewer than 10 points the code does NOT fail with
an `InsufficientData` condition; `sorted(prices, reverse=True)[:10]` simply
returns all the points present and `statistics.mean` averages them.  On the
two-point series `[100, 90]` the smoothed peak evaluates to `95`, the mean
of the points present. -/
theorem short_series_silently_averaged :
    smoothed_peak [100, 90] = some 95 := by
  simp only [smoothed_peak, sortDesc, List.insertionSort, List.orderedInsert]
  norm_num
  all_goals exact fun h => List.noConfusion h

/-- C6: when every historical price is 0 the smoothed peak is 0 and the
drop-percent computation divides by zero.  There is no `DegenerateInput`
guard in the code: the resulting `ZeroDivisionError` escapes the cycle and
reaches the `except` clause around the whole loop, terminating the monitor
(and, via the stop event, all monitors) instead of failing only this cycle
and retrying on the next schedule. -/
theorem zero_peak_raises_zero_division :
    smoothed_peak (List.replicate 10 0) = some 0 ∧
    monitor_step 0 none (.ok (List.replicate 10 0)) (.ok 0) =
      .terminated .zeroDivision none := by
  have hp : smoothed_peak (List.replicate 10 0) = some 0 := by
    simp only [smoothed_peak, sortDesc, List.replicate, List.insertionSort,
      List.orderedInsert]
    norm_num
    all_goals exact fun h => List.noConfusion h
  refine ⟨hp, ?_⟩
  have hrc := run_cycle_zero_peak 0 none _ 0 hp
  rw [get_threshold_state_none] at hrc
  rw [monitor_step_of_error 0 none _ _ .zeroDivision (by rw [hrc]), hrc]

/-- C7: if the stored state was last updated less than one day before each
of the two read instants, both calls to `get_threshold_state` return the
stored `threshold_percent` unchanged and neither performs a write: the
daily-decay side effect happens at most once per day. -/
theorem decay_idempotent_within_day (st : ThresholdState) (now₁ now₂ : ℤ)
    (h₁ : now₁ - st.last_updated < secondsPerDay)
    (h₂ : now₂ - st.last_updated < secondsPerDay) :
    get_threshold_state now₁ (some st) = (st, some st, false) ∧
    get_threshold_state now₂ (get_threshold_state now₁ (some st)).2.1 =
      (st, some st, false) := by
  have e₁ := get_threshold_state_no_decay now₁ st h₁
  refine ⟨e₁, ?_⟩
  rw [e₁]
  exact get_threshold_state_no_decay now₂ st h₂

/-- Witness for C7 at the state `{threshold 7, lastUpdated 0}` read at
instants 100 and 200 of the same day. -/
theorem decay_idempotent_within_day_witness :
    ((100 : ℤ) - (⟨7, 0⟩ : ThresholdState).last_updated < secondsPerDay) ∧
    ((200 : ℤ) - (⟨7, 0⟩ : ThresholdState).last_updated < secondsPerDay) ∧
    (get_threshold_state 100 (some ⟨7, 0⟩) = (⟨7, 0⟩, some ⟨7, 0⟩, false) ∧
     get_threshold_state 200 (get_threshold_state 100 (some ⟨7, 0⟩)).2.1 =
       (⟨7, 0⟩, some ⟨7, 0⟩, false)) :=
  ⟨by norm_num [secondsPerDay], by norm_num [secondsPerDay],
   decay_idempotent_within_day ⟨7, 0⟩ 100 200
     (by norm_num [secondsPerDay]) (by norm_num [secondsPerDay])⟩

/-- C8: iterating the daily decay from any threshold `t ≥ 5` never goes
below 5, and once at least `t - 5` days of decay have been applied the
value is exactly 5. -/
theorem decay_convergence (t : ℚ) (h : 5 ≤ t) :
    (∀ n : ℕ, 5 ≤ decayed^[n] t) ∧
    (∀ n : ℕ, t - 5 ≤ (n : ℚ) → decayed^[n] t = 5) := by
  constructor
  · intro n
    rw [decayed_iterate t h n]
    exact le_max_left _ _
  · intro n hn
    rw [decayed_iterate t h n, max_eq_left (by linarith)]

/-- Witness for C8 from the starting threshold 7. -/
theorem decay_convergence_witness :
    (5 : ℚ) ≤ 7 ∧
    ((∀ n : ℕ, 5 ≤ decayed^[n] (7 : ℚ)) ∧
     (∀ n : ℕ, (7 : ℚ) - 5 ≤ (n : ℚ) → decayed^[n] (7 : ℚ) = 5)) :=
  ⟨by norm_num, decay_convergence 7 (by norm_num)⟩

/-- C9: every threshold value reachable from the baseline 5.0 by daily
decays and post-alert tightenings (guarded by `threshold ≤ drop`) stays at
or above the baseline 5.0. -/
theorem reachable_threshold_ge_baseline (t : ℚ) (h : ReachableThreshold t) :
    5 ≤ t := by
  induction h with
  | init => exact le_refl 5
  | decay_step t' _ _ =>
    rw [decayed]
    exact le_max_left 5 _
  | tighten t' d _ hd ih => linarith

/-- Witness for C9 at the baseline state itself. -/
theorem reachable_threshold_ge_baseline_witness :
    ReachableThreshold 5 ∧ (5 : ℚ) ≤ 5 :=
  ⟨.init, reachable_threshold_ge_baseline 5 .init⟩

/-- C10: if `last_updated` lies `k` or more days in the past (any `k ≥ 1`),
one read decays the threshold by exactly 1.0 — `max 5 (t - 1)`, not
`max 5 (t - k)` — and stamps `last_updated = now`; the elapsed days beyond
the first are forfeited. -/
theorem multi_day_gap_decays_once (st : ThresholdState) (now k : ℤ)
    (hk : 1 ≤ k) (h : k * secondsPerDay ≤ now - st.last_updated) :
    get_threshold_state now (some st) =
      (⟨max 5 (st.threshold_percent - 1), now⟩,
       some ⟨max 5 (st.threshold_percent - 1), now⟩, true) := by
  have hpos : (0 : ℤ) ≤ secondsPerDay := by norm_num [secondsPerDay]
  have hmul : secondsPerDay ≤ k * secondsPerDay := le_mul_of_one_le_left hpos hk
  simpa [decayed] using get_threshold_state_decay now st (by linarith)

/-- Witness for C10: a 3-day gap decays the stored threshold 10 to 9 (one
step), not to 7. -/
theorem multi_day_gap_decays_once_witness :
    (1 : ℤ) ≤ 3 ∧ (3 : ℤ) * secondsPerDay ≤ 259200 - (⟨10, 0⟩ : ThresholdState).last_updated ∧
    get_threshold_state 259200 (some ⟨10, 0⟩) =
      (⟨max 5 ((10 : ℚ) - 1), 259200⟩, some ⟨max 5 ((10 : ℚ) - 1), 259200⟩, true) :=
  ⟨by norm_num, by norm_num [secondsPerDay],
   multi_day_gap_decays_once ⟨10, 0⟩ 259200 3 (by norm_num)
     (by norm_num [secondsPerDay])⟩

end StockAlert
